import Mathlib

/-!
Verification development for the Octolapse rendering module
(`octolapse/render.py`): a shallow embedding of the job-queue processor,
the staged render pipeline, FPS computation, output-path collision
avoidance, overlay draw-origin geometry, pre/post-roll frame padding and
the ffmpeg command/filter-string construction, together with theorems
about the embedded definitions.

Conventions of the embedding:
* Python floats used for FPS math are modelled as rationals (`ℚ`).
* Python 2 integer division (`/` on ints, which floors) is modelled with
  `Nat` division on the non-negative sizes involved.
* The snapshot directory is modelled as a partial map from frame slot
  (the integer substituted into `snapshot_filename_format`) to the
  identity of the image content stored there (`ℕ → Option ℕ`).
* External effects (filesystem probes, script and encoder exit codes)
  enter as explicit parameters of the pipeline environment.
-/

set_option maxRecDepth 4000

deriving instance DecidableEq for Except

namespace Octolapse

/-- `os.sep` on the modelled (posix) platform. -/
def osSep : String := "/"

/-- Embeds class `RenderError(Exception)` (render.py): a tagged error with a
machine-readable kind (`type`), a human message, and an optional wrapped
cause (modelled as a description string). -/
structure RenderError where
  type : String
  message : String
  cause : Option String := none
deriving DecidableEq, Repr

/-- A Python exception travelling through `_render`'s `try` block: either a
`RenderError` raised by a pipeline stage, or a raw (non-`RenderError`)
exception, which the catch-all at render.py:727-733 later normalizes. -/
inductive PyError where
  | renderError (e : RenderError)
  | raw (desc : String)
deriving DecidableEq, Repr

/-- The normalization performed by the catch-all in `_render`
(render.py:728-733): a `RenderError` passes through; anything else is
wrapped into kind `render-error`. -/
def normalizeError : PyError → RenderError
  | PyError.renderError e => e
  | PyError.raw desc =>
      { type := "render-error"
        message := "Unknown render error. Please check plugin_octolapse.log for more details."
        cause := some desc }

/-!
## Pre/post-roll frame padding (`TimelapseRenderJob._apply_pre_post_roll`)

The frame files in the temporary rendering directory are modelled as a map
`ℕ → Option ℕ` from frame slot to image-content identity.  `shutil.move`
and `shutil.copy` on frame paths become `moveFrame` and `copyFrame`.
-/

/-- `shutil.move` between two frame slots: the destination now holds the
source's content and the source slot is empty. -/
def moveFrame (fs : ℕ → Option ℕ) (src dst : ℕ) : ℕ → Option ℕ :=
  fun j => if j = dst then fs src else if j = src then none else fs j

/-- `shutil.copy` between two frame slots: the destination now holds the
source's content, the source is untouched. -/
def copyFrame (fs : ℕ → Option ℕ) (src dst : ℕ) : ℕ → Option ℕ :=
  fun j => if j = dst then fs src else fs j

/-- The pre-roll rename loop (render.py:879-885):
`for image_number in range(self._imageCount - 1, -1, -1)` moves frame
`image_number` to `image_number + pre_roll_frames`, processing the last
frame first.  `preRollMoves n fs k` performs the moves for frames
`k-1, k-2, …, 0` in that order. -/
def preRollMoves (preRollFrames : ℕ) : (ℕ → Option ℕ) → ℕ → (ℕ → Option ℕ)
  | fs, 0 => fs
  | fs, k + 1 => preRollMoves preRollFrames (moveFrame fs k (k + preRollFrames)) k

/-- The pre-roll copy loop (render.py:888-890):
`for image_index in range(pre_roll_frames)` copies the first image (which
the rename loop left at slot `pre_roll_frames`, recorded in
`first_image_path` when `image_number == 0`) into slot `image_index`. -/
def preRollCopies (src : ℕ) : (ℕ → Option ℕ) → ℕ → (ℕ → Option ℕ)
  | fs, 0 => fs
  | fs, k + 1 => copyFrame (preRollCopies src fs k) src k

/-- The post-roll copy loop (render.py:896-899):
`for image_index in range(post_roll_frames)` copies the last frame
(slot `base - 1` where `base = imageCount + pre_roll_frames`) into slot
`base + image_index`. -/
def postRollCopies (src base : ℕ) : (ℕ → Option ℕ) → ℕ → (ℕ → Option ℕ)
  | fs, 0 => fs
  | fs, k + 1 => copyFrame (postRollCopies src base fs k) src (base + k)

/-- Embeds `TimelapseRenderJob._apply_pre_post_roll` (render.py:868-900),
parameterized by the already-computed frame counts
`pre_roll_frames = int(pre_roll_seconds * fps)` and
`post_roll_frames = int(post_roll_seconds * fps)`.
Pre-roll (guarded by `pre_roll_frames > 0`): rename every frame upward by
`preRollFrames` slots last-to-first, then copy the original first frame
(now at slot `preRollFrames`) into slots `0 … preRollFrames - 1`.
Post-roll (guarded by `post_roll_frames > 0`): copy the frame at slot
`imageCount + preRollFrames - 1` into the next `postRollFrames` slots. -/
def apply_pre_post_roll (fs : ℕ → Option ℕ) (imageCount preRollFrames postRollFrames : ℕ) :
    ℕ → Option ℕ :=
  let fs1 :=
    if 0 < preRollFrames then
      preRollCopies preRollFrames (preRollMoves preRollFrames fs imageCount) preRollFrames
    else fs
  if 0 < postRollFrames then
    postRollCopies (imageCount + preRollFrames - 1) (imageCount + preRollFrames) fs1
      postRollFrames
  else fs1

/-- The concrete 5-frame sequence used in the spec's worked example:
slots `0 … 4` hold distinct images `0 … 4`, all other slots are empty. -/
def fiveFrames : ℕ → Option ℕ := fun i => if i < 5 then some i else none

/-!
## FPS computation (`TimelapseRenderJob._calculate_fps`)
-/

/-- Modelled from the spec: `utility.round_to` is imported from
`octolapse.utility`, which is not part of this source tree; §4.4 of the
spec says the duration-mode FPS is "rounded to the nearest 0.001", so the
quotient is rounded to the nearest multiple of the precision. -/
def round_to (n precision : ℚ) : ℚ :=
  round (n / precision) * precision

/-- Embeds `TimelapseRenderJob._calculate_fps` (render.py:520-547): start
from the configured fixed FPS; in `duration` mode replace it by
`imageCount / run_length_seconds` rounded to the nearest 0.001 and clamped
by `max_fps` / `min_fps` exactly as the two-branch comparison does. -/
def calculate_fps_value (fps_calculation_type : String)
    (fps run_length_seconds max_fps min_fps : ℚ) (imageCount : ℕ) : ℚ :=
  if fps_calculation_type = "duration" then
    let f := round_to ((imageCount : ℚ) / run_length_seconds) (1 / 1000)
    if f > max_fps then max_fps
    else if f < min_fps then min_fps
    else f
  else fps

/-- The `FPS` output token written at render.py:547:
`"{0}".format(int(math.ceil(self._fps)))`. -/
def fps_token (fps : ℚ) : String :=
  toString (⌈fps⌉ : ℤ)

/-!
## Output path and collision avoidance (`TimelapseRenderJob._set_outputs`)
-/

/-- Possible failures of Python's `str.format` on the output template:
an unknown token (`KeyError`), an integer-only token (`IndexError`), or
another formatting error (`ValueError`). -/
inductive FormatError where
  | keyError (token : String)
  | indexError
  | valueError
deriving DecidableEq, Repr

/-- Embeds the template-expansion step of `_set_outputs`
(render.py:553-557): the call
`self._rendering.output_template.format(**output_tokens)` is wrapped in
`try … except ValueError`, so a `ValueError` is caught, logged, and
replaced by the placeholder filename `RenderingFilenameTemplateError`,
while `KeyError` and `IndexError` are not caught there and propagate out
of `_set_outputs`. -/
def set_output_filename (format_result : Except FormatError String) :
    Except FormatError String :=
  match format_result with
  | Except.ok filename => Except.ok filename
  | Except.error FormatError.valueError => Except.ok "RenderingFilenameTemplateError"
  | Except.error e => Except.error e

/-- Candidate output file names tried by the collision loops
(render.py:561-570, 576-586): candidate `0` is the template-expanded base
name; candidate `n ≥ 1` appends `_n` to the original base name (never to
the previous candidate). -/
def candidateName (base : String) : ℕ → String
  | 0 => base
  | n + 1 => base ++ "_" ++ toString (n + 1)

/-- The collision `while` loop (render.py:562-570): starting from file
number `n`, advance while the candidate path is occupied.  `fuel` bounds
the unbounded Python loop. -/
def collisionSearch (occupied : ℕ → Bool) : ℕ → ℕ → ℕ
  | 0, n => n
  | fuel + 1, n => if occupied n then collisionSearch occupied fuel (n + 1) else n

/-- The output-location fields computed by `_set_outputs`. -/
structure OutputPaths where
  output_directory : String
  output_filename : String
  output_extension : String
  rendering_output_file_path : String
  synchronized_directory : String
  synchronized_filename : String
deriving DecidableEq, Repr

/-- Embeds `TimelapseRenderJob._set_outputs` (render.py:549-589) from the
already-expanded base filename onward: the output directory is
`<data_dir>/timelapse/`; the primary filename scans candidates `0,1,2,…`
against `"{dir}{name}.{ext}"`; the synchronized filename restarts from the
same `original_output_filename` with its own counter, scanning
`"{octoprint_folder}{sep}{name}.{ext}"`.  `isfile` is the
`os.path.isfile` probe and `fuel` bounds each `while` loop. -/
def set_outputs_resolve (isfile : String → Bool) (fuel : ℕ)
    (data_directory octoprint_timelapse_folder : String)
    (original_output_filename output_extension : String) : OutputPaths :=
  let output_directory := data_directory ++ osSep ++ "timelapse" ++ osSep
  let n1 := collisionSearch
    (fun n => isfile
      (output_directory ++ candidateName original_output_filename n ++ "." ++ output_extension))
    fuel 0
  let output_filename := candidateName original_output_filename n1
  let n2 := collisionSearch
    (fun n => isfile
      (octoprint_timelapse_folder ++ osSep ++ candidateName original_output_filename n
        ++ "." ++ output_extension))
    fuel 0
  { output_directory := output_directory
    output_filename := output_filename
    output_extension := output_extension
    rendering_output_file_path := output_directory ++ output_filename ++ "." ++ output_extension
    synchronized_directory := octoprint_timelapse_folder ++ osSep
    synchronized_filename := candidateName original_output_filename n2 }

/-- A concrete `os.path.isfile` probe for the collision-avoidance witness:
`render.mp4` and `render_1.mp4` already exist in the primary output
directory, and nothing exists in the synchronized folder. -/
def demoIsFile : String → Bool := fun s =>
  s = "/data/timelapse/render.mp4" || s = "/data/timelapse/render_1.mp4"

/-- Python's `str.lower()` applied to an output-format name, modelled by
lower-casing each character of the string. -/
def strLower (s : String) : String :=
  ⟨s.data.map Char.toLower⟩

/-- Python's `str.strip()` (drop whitespace at both ends), modelled on
the string's characters. -/
def strStrip (s : String) : String :=
  ⟨((s.data.dropWhile Char.isWhitespace).reverse.dropWhile Char.isWhitespace).reverse⟩

/-- Python's `str.endswith(suffix)`, modelled on the string's
characters. -/
def strEndsWith (s suffix : String) : Bool :=
  s.data.drop (s.data.length - suffix.data.length) == suffix.data

/-- Embeds `TimelapseRenderJob._get_extension_from_output_format`
(render.py:902-911): fixed lookup table, defaulting to `mp4`. -/
def get_extension_from_output_format (output_format : String) : String :=
  let EXTENSIONS := [("avi", "avi"), ("flv", "flv"), ("h264", "mp4"), ("vob", "vob"),
    ("mp4", "mp4"), ("mpeg", "mpeg"), ("gif", "gif")]
  (EXTENSIONS.lookup (strLower output_format)).getD "mp4"

/-- Embeds `TimelapseRenderJob._get_vcodec_from_output_format`
(render.py:913-922): fixed lookup table, defaulting to `mpeg2video`. -/
def get_vcodec_from_output_format (output_format : String) : String :=
  let VCODECS := [("avi", "mpeg4"), ("flv", "flv1"), ("gif", "gif"), ("h264", "h264"),
    ("mp4", "mpeg4"), ("mpeg", "mpeg2video"), ("vob", "mpeg2video")]
  (VCODECS.lookup (strLower output_format)).getD "mpeg2video"

/-!
## Overlay draw-origin computation (`TimelapseRenderJob.add_overlay`)
-/

/-- Embeds the alignment block of `TimelapseRenderJob.add_overlay`
(render.py:836-860).  `image_w`/`image_h` are `image.size`,
`text_w`/`text_h` the `d.multiline_textsize` extent (text measuring is an
external capability, so the extent enters as a parameter), `x`/`y` the
configured overlay position.  Python 2 floor-divides the non-negative
sizes (`image.size[1] / 2`), hence the `Nat` divisions.  Vertical
alignment is processed first, so an unrecognized valign raises before
halign is examined. -/
def add_overlay_origin (image_w image_h text_w text_h : ℕ) (x y : ℤ)
    (overlay_text_valign overlay_text_halign : String) : Except RenderError (ℤ × ℤ) :=
  match
    (if overlay_text_valign = "top" then Except.ok y
     else if overlay_text_valign = "middle" then
       Except.ok (y + ((image_h / 2 : ℕ) : ℤ) - ((text_h / 2 : ℕ) : ℤ))
     else if overlay_text_valign = "bottom" then
       Except.ok (y + (image_h : ℤ) - (text_h : ℤ))
     else Except.error
       { type := "overlay-text-valign"
         message := "An invalid overlay text valign (" ++ overlay_text_valign
           ++ ") was specified." }) with
  | Except.error e => Except.error e
  | Except.ok y2 =>
    match
      (if overlay_text_halign = "left" then Except.ok x
       else if overlay_text_halign = "center" then
         Except.ok (x + ((image_w / 2 : ℕ) : ℤ) - ((text_w / 2 : ℕ) : ℤ))
       else if overlay_text_halign = "right" then
         Except.ok (x + (image_w : ℤ) - (text_w : ℤ))
       else Except.error
         { type := "overlay-text-halign"
           message := "An invalid overlay text halign (" ++ overlay_text_halign
             ++ ") was specified." }) with
    | Except.error e => Except.error e
    | Except.ok x2 => Except.ok (x2, y2)

/-!
## Job queue processor (`RenderingProcessor.run`)
-/

/-- Embeds the dequeue loop of `RenderingProcessor.run`
(render.py:216-248) over one drain of a queue with no concurrent
enqueues: each iteration takes the head job, increments `job_count` and
stamps it as the job's `job_number`, and stamps `jobs_remaining` with the
queue size observed right after that dequeue (`qsize()` of the remaining
items).  The returned list records `(job, job_number, jobs_remaining)`
per processed job, in processing order; neither stamp is touched again. -/
def processorRun {α : Type} : List α → ℕ → List (α × ℕ × ℕ)
  | [], _ => []
  | job :: rest, job_count =>
      (job, job_count + 1, rest.length) :: processorRun rest (job_count + 1)

/-!
## Encoder command and filter-string construction
-/

/-- The filter-stage templates built by `_create_filter_string`
(render.py:968-977): a mandatory pixel-format-normalization stage and,
exactly when a watermark is configured, a movie-overlay stage anchored at
offset 10 from the left and 10 above the bottom
(`overlay=10:main_h-overlay_h-10`).  Each template awaits its
input/output labels. -/
def filter_templates (watermark : Option String) (pix_fmt : String) :
    List (String → String → String) :=
  match watermark with
  | none =>
    [fun prev_filter next_filter =>
      "[" ++ prev_filter ++ "] format=" ++ pix_fmt ++ " [" ++ next_filter ++ "]"]
  | some wm =>
    [fun prev_filter next_filter =>
      "[" ++ prev_filter ++ "] format=" ++ pix_fmt ++ " [" ++ next_filter ++ "]",
     fun prev_filter next_filter =>
      "movie=" ++ wm ++ " [wm]; [" ++ prev_filter
        ++ "][wm] overlay=10:main_h-overlay_h-10 [" ++ next_filter ++ "]"]

/-- The sequential filter labels `f0, f1, …` followed by `out`
(render.py:980). -/
def filter_names (n : ℕ) : List String :=
  (List.range n).map (fun x => "f" ++ toString x) ++ ["out"]

/-- Embeds `TimelapseRenderJob._create_filter_string` (render.py:957-986):
instantiate each stage template with consecutive labels
(`zip(…, filter_names, filter_names[1:])`) and join the stages with
`"; "`. -/
def create_filter_string (watermark : Option String) (pix_fmt : String) : String :=
  let filters := filter_templates watermark pix_fmt
  let names := filter_names filters.length
  String.intercalate "; "
    (List.zipWith (fun f pn => f pn.1 pn.2) filters (names.zip names.tail))

/-- Embeds `TimelapseRenderJob._create_ffmpeg_command_string`
(render.py:924-955) as the argument list that the source finally joins
with spaces: input frame rate, quiet log level, quoted input pattern,
thread count, output frame rate, overwrite flag, bitrate, the codec
looked up from the output format, the filter chain passed via `-vf` after
`sarge.shell_quote` (an external capability, passed in as `shell_quote`;
the `filter_string is not None` guard in the source is always true
because `_create_filter_string` always returns a string), and finally the
quoted output file. -/
def create_ffmpeg_command (shell_quote : String → String) (ffmpeg : String) (fps : ℚ)
    (threads : ℕ) (bitrate output_format input_file_format output_file : String)
    (watermark : Option String) (pix_fmt : String) : List String :=
  let v_codec := get_vcodec_from_output_format output_format
  let command := [ffmpeg, "-framerate", toString fps, "-loglevel", "error", "-i",
    "\"" ++ input_file_format ++ "\""]
    ++ ["-threads", toString threads, "-r", toString fps, "-y", "-b", bitrate,
      "-vcodec", v_codec]
  let filter_string := create_filter_string watermark pix_fmt
  let command := command ++ ["-vf", shell_quote filter_string]
  command ++ ["\"" ++ output_file ++ "\""]

/-- The space-joined command string handed to `sarge.run`
(render.py:955). -/
def create_ffmpeg_command_string (shell_quote : String → String) (ffmpeg : String)
    (fps : ℚ) (threads : ℕ) (bitrate output_format input_file_format output_file : String)
    (watermark : Option String) (pix_fmt : String) : String :=
  String.intercalate " "
    (create_ffmpeg_command shell_quote ffmpeg fps threads bitrate output_format
      input_file_format output_file watermark pix_fmt)

/-!
## The render pipeline (`TimelapseRenderJob._render`)
-/

/-- The mutable per-job fields of `TimelapseRenderJob` that the pipeline
stages write and `create_callback_payload` reads; all start out at the
constructor's empty values (render.py:303-331). -/
structure JobState where
  output_directory : String := ""
  output_filename : String := ""
  output_extension : String := ""
  rendering_output_file_path : String := ""
  synchronized_directory : String := ""
  synchronized_filename : String := ""
  imageCount : Option ℕ := none
  fps : Option ℚ := none
  temp_rendering_dir : Option String := none
  before_render_error : Option RenderError := none
  after_render_error : Option RenderError := none
deriving DecidableEq, Repr

/-- Embeds class `RenderingCallbackArgs` (render.py:1009-1048). -/
structure RenderingCallbackArgs where
  Reason : String
  ReturnCode : ℤ
  JobId : String
  JobDirectory : String
  SnapshotDirectory : String
  RenderingDirectory : String
  RenderingFilename : String
  RenderingExtension : String
  SynchronizedDirectory : String
  SynchronizedFilename : String
  Synchronize : Bool
  SnapshotCount : Option ℕ
  SecondsAddedToPrint : ℚ
  JobNumber : ℕ
  JobsRemaining : ℕ
  CameraName : String
  BeforeRenderError : Option RenderError
  AfterRenderError : Option RenderError
deriving DecidableEq, Repr

/-- The external conditions one `_render` run observes: the job
descriptor and cloned rendering configuration, plus the outcome of every
external effect (filesystem probes, directory creation, the before/after
scripts, the encoder process, synchronization).  Defaults describe a
fully healthy environment; concrete scenarios override fields. -/
structure RenderEnv where
  imageCount : ℕ := 10
  fps_calculation_type : String := "static"
  fps : ℚ := 30
  run_length_seconds : ℚ := 10
  max_fps : ℚ := 120
  min_fps : ℚ := 1
  output_template_result : Except FormatError String := Except.ok "render"
  output_format : String := "mp4"
  sync_with_timelapse : Bool := false
  enable_watermark : Bool := false
  selected_watermark : String := ""
  bitrate : Option String := some "8000K"
  thread_count : ℕ := 1
  job_id : String := "job"
  job_directory : String := "/data/snapshots/job"
  snapshot_directory : String := "/data/snapshots/job/cam"
  snapshot_filename_format : String := "%06d.jpg"
  camera_name : String := "camera"
  seconds_added : ℚ := 0
  job_number : ℕ := 1
  jobs_remaining : ℕ := 0
  data_directory : String := "/data"
  octoprint_timelapse_folder : String := "/octo"
  ffmpeg : Option String := some "/usr/bin/ffmpeg"
  shell_quote : String → String := fun s => s
  isfile : String → Bool := fun _ => false
  collision_fuel : ℕ := 1
  makedirs_error : Option String := none
  watermark_exists : String → Bool := fun _ => true
  preprocess_error : Option String := none
  encoder_launch : Except String ℤ := Except.ok 0
  encoder_stderr : String := ""
  before_script_cmd : String := ""
  before_script_result : Except String (ℤ × String × String) := Except.ok (0, "", "")
  after_script_cmd : String := ""
  after_script_result : Except String (ℤ × String × String) := Except.ok (0, "", "")
  sync_error : Option String := none

/-- Embeds `TimelapseRenderJob._pre_render_script` (render.py:364-416):
from the configured script string and the outcome of running it (launch
failure, or exit code with stdout/stderr text) produce the `RenderError`
captured on the job, if any.  A blank script is skipped; the surrounding
`try/except RenderError` means the stage itself never raises. -/
def pre_render_script (script : String) (result : Except String (ℤ × String × String)) :
    Option RenderError :=
  if strStrip script = "" then none
  else
    match result with
    | Except.error e =>
        some { type := "before_render_script_error"
               message := "A script occurred while executing executing the before-render script"
               cause := some e }
    | Except.ok (return_code, _console_output, stderr) =>
        let error_message := if strEndsWith stderr "\r\n" then stderr.dropRight 2 else stderr
        if return_code ≠ 0 then
          if error_message ≠ "" then
            some { type := "before_render_script_error"
                   message := "The before-render script failed with the following error message: "
                     ++ error_message }
          else
            some { type := "before_render_script_error"
                   message := "The before-render script returned " ++ toString return_code
                     ++ ", which indicates an error." }
        else none

/-- Embeds `TimelapseRenderJob._post_render_script` (render.py:418-486):
same contract as the before-script stage, with kind
`after_render_script_error`. -/
def post_render_script (script : String) (result : Except String (ℤ × String × String)) :
    Option RenderError :=
  if strStrip script = "" then none
  else
    match result with
    | Except.error e =>
        some { type := "after_render_script_error"
               message := "A script occurred while executing executing the after-render script"
               cause := some e }
    | Except.ok (return_code, _console_output, stderr) =>
        let error_message := if strEndsWith stderr "\r\n" then stderr.dropRight 2 else stderr
        if return_code ≠ 0 then
          if error_message ≠ "" then
            some { type := "after_render_script_error"
                   message := "The after-render script failed with the following error message: "
                     ++ error_message }
          else
            some { type := "after_render_script_error"
                   message := "The after-render script returned " ++ toString return_code
                     ++ ", which indicates an error." }
        else none

/-- Embeds `TimelapseRenderJob._pre_render` (render.py:341-362) together
with `_read_snapshot_metadata` and `_set_outputs`: returns the updated
job state plus the exception (if any) escaping the stage.  The two
`insufficient-images` frame-count checks and the FPS check run before
`_set_outputs`; a `KeyError` or `IndexError` escaping the template
expansion is a raw Python exception (only `ValueError` is caught, inside
`set_output_filename`). -/
def pre_render (env : RenderEnv) (s : JobState) : JobState × Option PyError :=
  let s := { s with imageCount := some env.imageCount }
  if env.imageCount = 0 then
    (s, some (PyError.renderError
      { type := "insufficient-images"
        message := "No snapshots were found for the " ++ env.camera_name
          ++ " camera profile." }))
  else if env.imageCount = 1 then
    (s, some (PyError.renderError
      { type := "insufficient-images"
        message := "Only 1 frame was captured, cannot make a timelapse with a single frame." }))
  else
    let fps := calculate_fps_value env.fps_calculation_type env.fps env.run_length_seconds
      env.max_fps env.min_fps env.imageCount
    let s := { s with fps := some fps }
    if fps < 1 then
      (s, some (PyError.renderError
        { type := "insufficient-images"
          message := "The calculated FPS is below 1, which is not allowed. Please check the rendering settings for Min and Max FPS as well as the number of snapshots captured." }))
    else
      match set_output_filename env.output_template_result with
      | Except.error (FormatError.keyError t) => (s, some (PyError.raw ("KeyError: " ++ t)))
      | Except.error FormatError.indexError => (s, some (PyError.raw "IndexError"))
      | Except.error FormatError.valueError => (s, some (PyError.raw "ValueError"))
      | Except.ok original_output_filename =>
        let ext := get_extension_from_output_format env.output_format
        let paths := set_outputs_resolve env.isfile env.collision_fuel env.data_directory
          env.octoprint_timelapse_folder original_output_filename ext
        ({ s with
            output_directory := paths.output_directory
            output_filename := paths.output_filename
            output_extension := paths.output_extension
            rendering_output_file_path := paths.rendering_output_file_path
            synchronized_directory := paths.synchronized_directory
            synchronized_filename := paths.synchronized_filename }, none)

/-- Embeds `TimelapseRenderJob.create_callback_payload` (render.py:595-617):
a fresh flattened snapshot of the job's current state. -/
def create_callback_payload (env : RenderEnv) (s : JobState) (return_code : ℤ)
    (reason : String) : RenderingCallbackArgs :=
  { Reason := reason
    ReturnCode := return_code
    JobId := env.job_id
    JobDirectory := env.job_directory
    SnapshotDirectory := env.snapshot_directory
    RenderingDirectory := s.output_directory
    RenderingFilename := s.output_filename
    RenderingExtension := s.output_extension
    SynchronizedDirectory := s.synchronized_directory
    SynchronizedFilename := s.synchronized_filename
    Synchronize := env.sync_with_timelapse
    SnapshotCount := s.imageCount
    SecondsAddedToPrint := env.seconds_added
    JobNumber := env.job_number
    JobsRemaining := env.jobs_remaining
    CameraName := env.camera_name
    BeforeRenderError := s.before_render_error
    AfterRenderError := s.after_render_error }

/-- Embeds the precondition and watermark checks of `_render`
(render.py:635-669): ffmpeg path, bitrate, output-directory creation,
watermark validation.  On success returns the validated ffmpeg path,
bitrate, and watermark path (when enabled). -/
def render_checks (env : RenderEnv) (s : JobState) :
    Except PyError (String × String × Option String) :=
  match env.ffmpeg with
  | none => Except.error (PyError.renderError
      { type := "ffmpeg_path"
        message := "Cannot create movie, path to ffmpeg is unset. Please configure the ffmpeg path within the Features->Webcam and Timelapse settings tab." })
  | some ffmpeg_path =>
    match env.bitrate with
    | none => Except.error (PyError.renderError
        { type := "no-bitrate"
          message := "Cannot create movie, desired bitrate is unset. Please set the bitrate within the Octolapse rendering profile." })
    | some bitrate =>
      match env.makedirs_error with
      | some cause => Except.error (PyError.renderError
          { type := "create-render-path"
            message := "Render - An exception was thrown when trying to create the rendering path at: "
              ++ s.output_directory
              ++ ".  Please check the logs (plugin_octolapse.log) for details."
            cause := some cause })
      | none =>
        if env.enable_watermark then
          if env.selected_watermark = "" then
            Except.error (PyError.renderError
              { type := "watermark-path"
                message := "Render - Watermark was enabled but no watermark file was selected." })
          else if !env.watermark_exists env.selected_watermark then
            Except.error (PyError.renderError
              { type := "watermark-non-existent"
                message := "Render - Watermark file does not exist." })
          else Except.ok (ffmpeg_path, bitrate, some env.selected_watermark)
        else Except.ok (ffmpeg_path, bitrate, none)

/-- Embeds the encoder invocation (render.py:684-696), the after-render
script stage, and the synchronization step (render.py:698-725).
`encoder_launch` is the outcome of `sarge.run`: a launch exception, or
the process return code; the success-path `shutil.rmtree` cleanup is a
pure filesystem effect with no observable in this model. -/
def encode_and_finish (env : RenderEnv) (s : JobState) : JobState × Option PyError :=
  match env.encoder_launch with
  | Except.error cause =>
      (s, some (PyError.renderError
        { type := "rendering-exception"
          message := "ffmpeg failed during rendering of movie. Please check plugin_octolapse.log for details."
          cause := some cause }))
  | Except.ok return_code =>
    if return_code ≠ 0 then
      (s, some (PyError.renderError
        { type := "return-code"
          message := "Could not render movie, got return code " ++ toString return_code
            ++ ": " ++ env.encoder_stderr }))
    else
      let s := { s with
        after_render_error := post_render_script env.after_script_cmd env.after_script_result }
      if env.sync_with_timelapse then
        match env.sync_error with
        | some cause =>
            (s, some (PyError.renderError
              { type := "synchronizing-exception"
                message := "Octolapse has failed to synchronize the default timelapse plugin due to an unexpected exception.  Check plugin_octolapse.log for more  information.  You should be able to find your video within your  OctoPrint  server here:<br/> "
                  ++ s.rendering_output_file_path
                cause := some cause }))
        | none => (s, none)
      else (s, none)

/-- What one execution of the `try` block of `_render` produces. -/
structure BodyResult where
  state : JobState
  start_payload : Option RenderingCallbackArgs
  encoder_reached : Bool
  encoder_command : Option String
  err : Option PyError

/-- Embeds the `try` body of `TimelapseRenderJob._render`
(render.py:623-725), in source order: `_pre_render`, the render-start
callback payload, `mkdtemp`, the precondition/watermark checks,
`_preprocess_images` (overlay compositing; a raised `IOError` enters as
`preprocess_error`), `_apply_pre_post_roll` (modelled separately on the
frame map by `apply_pre_post_roll`), encoder-command construction, the
encoder invocation, `_post_render_script`, cleanup and synchronization.
`encoder_reached` records whether execution arrived at the
command-construction/invocation step. -/
def render_body (env : RenderEnv) (s0 : JobState) : BodyResult :=
  match pre_render env s0 with
  | (s1, some e) =>
      { state := s1, start_payload := none, encoder_reached := false
        encoder_command := none, err := some e }
  | (s1, none) =>
    let start_payload := create_callback_payload env s1 0 "Starting to render timelapse."
    let s2 := { s1 with temp_rendering_dir := some "octolapse_render" }
    match render_checks env s2 with
    | Except.error e =>
        { state := s2, start_payload := some start_payload, encoder_reached := false
          encoder_command := none, err := some e }
    | Except.ok (ffmpeg_path, bitrate, watermark_path) =>
      match env.preprocess_error with
      | some cause =>
          { state := s2, start_payload := some start_payload, encoder_reached := false
            encoder_command := none, err := some (PyError.raw cause) }
      | none =>
        let command_str := create_ffmpeg_command_string env.shell_quote ffmpeg_path
          (s2.fps.getD 0) env.thread_count bitrate env.output_format
          ("octolapse_render" ++ osSep ++ env.snapshot_filename_format)
          s2.rendering_output_file_path watermark_path "yuv420p"
        match encode_and_finish env s2 with
        | (s3, some e) =>
            { state := s3, start_payload := some start_payload, encoder_reached := true
              encoder_command := some command_str, err := some e }
        | (s3, none) =>
            { state := s3, start_payload := some start_payload, encoder_reached := true
              encoder_command := some command_str, err := none }

/-- The observable outcome of one `_render` run: the payloads handed to
the lifecycle callbacks, whether the encoder step was reached, and which
terminal callback fired. -/
structure RenderTrace where
  prerender_payload : RenderingCallbackArgs
  start_payload : Option RenderingCallbackArgs
  encoder_reached : Bool
  encoder_command : Option String
  success : Option RenderingCallbackArgs
  failure : Option (RenderingCallbackArgs × RenderError)

/-- The job state right after `_pre_render_script` ran (render.py:625):
the constructor's empty fields plus the captured before-script error. -/
def initial_state (env : RenderEnv) : JobState :=
  { ({} : JobState) with
    before_render_error := pre_render_script env.before_script_cmd env.before_script_result }

/-- Embeds `TimelapseRenderJob._render` (render.py:619-742): fire the
prerender-start callback, run `_pre_render_script` (its error is captured
on the job, never raised), run the `try` body, normalize any escaped
exception (render.py:727-733; failure-path cleanup is a filesystem
effect), and fire exactly one of the success/error callbacks, both
constructed with return code 0 (render.py:740-742). -/
def render (env : RenderEnv) : RenderTrace :=
  let prerender_payload := create_callback_payload env ({} : JobState) 0 "Prerender is starting."
  let b := render_body env (initial_state env)
  match b.err with
  | none =>
      { prerender_payload := prerender_payload
        start_payload := b.start_payload
        encoder_reached := b.encoder_reached
        encoder_command := b.encoder_command
        success := some (create_callback_payload env b.state 0 "Timelapse rendering is complete.")
        failure := none }
  | some e =>
      { prerender_payload := prerender_payload
        start_payload := b.start_payload
        encoder_reached := b.encoder_reached
        encoder_command := b.encoder_command
        success := none
        failure := some (create_callback_payload env b.state 0 "The render process failed.",
          normalizeError e) }

/-- All stages up to (and excluding) the encoder invocation succeed:
enough frames, FPS in range, template expansion did not escape, ffmpeg
and bitrate configured, output directory creatable, watermark (when
enabled) valid, preprocessing clean. -/
def stages_before_encoder_ok (env : RenderEnv) : Prop :=
  2 ≤ env.imageCount ∧
  ¬ calculate_fps_value env.fps_calculation_type env.fps env.run_length_seconds
      env.max_fps env.min_fps env.imageCount < 1 ∧
  (set_output_filename env.output_template_result).isOk = true ∧
  env.ffmpeg.isSome = true ∧
  env.bitrate.isSome = true ∧
  env.makedirs_error = none ∧
  (env.enable_watermark = true →
    env.selected_watermark ≠ "" ∧ env.watermark_exists env.selected_watermark = true) ∧
  env.preprocess_error = none

/-- Every stage other than the before/after script stages succeeds. -/
def non_script_stages_ok (env : RenderEnv) : Prop :=
  stages_before_encoder_ok env ∧
  env.encoder_launch = Except.ok 0 ∧
  (env.sync_with_timelapse = true → env.sync_error = none)

/-- Environment of the C2 witness: a camera that captured no frames. -/
def noFramesEnv : RenderEnv := { imageCount := 0 }

/-- Environment of the C6 witness: a healthy pipeline whose before-render
script exits with code 1 and error text `boom`. -/
def scriptFailEnv : RenderEnv :=
  { before_script_cmd := "myscript.sh"
    before_script_result := Except.ok (1, "", "boom") }

/-- Environment of the C10 witness: the encoder exits with code 3 and
error text `encoder boom`. -/
def encoderFailEnv : RenderEnv :=
  { encoder_launch := Except.ok 3
    encoder_stderr := "encoder boom" }

/-- A pipeline whose after-render script exits with code 1 (error text
`boom`) and whose synchronization step then raises: the error callback
fires while the after-script error is already captured on the job. -/
def syncFailEnv : RenderEnv :=
  { after_script_cmd := "after.sh"
    after_script_result := Except.ok (1, "", "boom")
    sync_with_timelapse := true
    sync_error := some "disk full" }

end Octolapse

namespace Octolapse

/-! ## Lemmas about the pre/post-roll loops -/

theorem preRollMoves_apply (N : ℕ) (hN : 0 < N) :
    ∀ (k : ℕ) (fs : ℕ → Option ℕ) (j : ℕ),
      preRollMoves N fs k j =
        if N ≤ j ∧ j < k + N then fs (j - N)
        else if j < k ∧ j < N then none
        else fs j := by
  intro k
  induction k with
  | zero =>
      intro fs j
      simp only [preRollMoves]
      split
      · omega
      · split
        · omega
        · rfl
  | succ k ih =>
      intro fs j
      show preRollMoves N (moveFrame fs k (k + N)) k j = _
      rw [ih]
      simp only [moveFrame]
      split
      · rename_i h1
        -- j is a destination slot of one of the first k moves
        have hjk : j - N < k := by omega
        have h2 : ¬ (j - N = k + N) := by omega
        have h3 : ¬ (j - N = k) := by omega
        simp only [h2, if_false, h3]
        have hgoal : N ≤ j ∧ j < k + 1 + N := by omega
        simp [hgoal]
      · split
        · rename_i h1 h2
          -- slot j was emptied by one of the first k moves
          have hgoal : j < k + 1 ∧ j < N := by omega
          have hne : ¬ (N ≤ j ∧ j < k + 1 + N) := by omega
          simp [hne, hgoal]
        · rename_i h1 h2
          -- slot j untouched by the first k moves; examine the move of frame k
          split
          · rename_i h3
            -- j = k + N: destination of the move of frame k
            have hgoal : N ≤ j ∧ j < k + 1 + N := by omega
            have harg : j - N = k := by omega
            simp [hgoal, harg]
          · split
            · rename_i h3 h4
              -- j = k: source of the move of frame k, now empty
              have hNk : ¬ (N ≤ k) := by omega
              have hgoal : j < k + 1 ∧ j < N := by omega
              have hne : ¬ (N ≤ j ∧ j < k + 1 + N) := by omega
              simp [hne, hgoal]
            · rename_i h3 h4
              -- j untouched by the move of frame k as well
              have hne1 : ¬ (N ≤ j ∧ j < k + 1 + N) := by omega
              have hne2 : ¬ (j < k + 1 ∧ j < N) := by omega
              simp [hne1, hne2]

theorem preRollCopies_apply (src : ℕ) :
    ∀ (k : ℕ) (fs : ℕ → Option ℕ) (j : ℕ), k ≤ src →
      preRollCopies src fs k j = if j < k then fs src else fs j := by
  intro k
  induction k with
  | zero =>
      intro fs j _
      simp [preRollCopies]
  | succ k ih =>
      intro fs j hsrc
      show copyFrame (preRollCopies src fs k) src k j = _
      simp only [copyFrame]
      split
      · rename_i h1
        have hlt : j < k + 1 := by omega
        rw [ih fs src (by omega)]
        have : ¬ (src < k) := by omega
        simp [this, hlt]
      · rename_i h1
        rw [ih fs j (by omega)]
        split
        · rename_i h2
          have : j < k + 1 := by omega
          simp [this]
        · rename_i h2
          have : ¬ (j < k + 1) := by omega
          simp [this]

theorem postRollCopies_apply (src base : ℕ) (hsb : src < base) :
    ∀ (k : ℕ) (fs : ℕ → Option ℕ) (j : ℕ),
      postRollCopies src base fs k j =
        if base ≤ j ∧ j < base + k then fs src else fs j := by
  intro k
  induction k with
  | zero =>
      intro fs j
      simp only [postRollCopies]
      split
      · omega
      · rfl
  | succ k ih =>
      intro fs j
      show copyFrame (postRollCopies src base fs k) src (base + k) j = _
      simp only [copyFrame]
      split
      · rename_i h1
        rw [ih fs src]
        have h2 : ¬ (base ≤ src ∧ src < base + k) := by omega
        have hgoal : base ≤ j ∧ j < base + (k + 1) := by omega
        simp [h2, hgoal]
      · rename_i h1
        rw [ih fs j]
        split
        · rename_i h2
          have hgoal : base ≤ j ∧ j < base + (k + 1) := by omega
          simp [hgoal]
        · rename_i h2
          have hgoal : ¬ (base ≤ j ∧ j < base + (k + 1)) := by omega
          simp [hgoal]

/-- **C1.** Pre/post-roll expansion: for a frame sequence of count `C` with
`N > 0` requested pre-roll frames, every existing frame `i ∈ 0 … C-1` ends
up at slot `i + N` (the renames are processed last-to-first, which is what
makes this hold), slots `0 … N-1` hold copies of the original first frame
(found at slot `N` after renaming), and for `M` requested post-roll frames
the frame at slot `C + N - 1` — computed after pre-roll — is copied into
slots `C + N … C + N + M - 1`. -/
theorem apply_pre_post_roll_spec (fs : ℕ → Option ℕ) (C N M : ℕ)
    (hC : 0 < C) (hN : 0 < N) :
    (∀ i, i < C → apply_pre_post_roll fs C N M (i + N) = fs i) ∧
    (∀ i, i < N → apply_pre_post_roll fs C N M i = fs 0) ∧
    (∀ i, i < M → apply_pre_post_roll fs C N M (C + N + i) = fs (C - 1)) := by
  have hfs1 : ∀ j, preRollCopies N (preRollMoves N fs C) N j =
      if N ≤ j ∧ j < C + N then fs (j - N)
      else if j < N then fs 0
      else fs j := by
    intro j
    rw [preRollCopies_apply N N (preRollMoves N fs C) j (le_refl N)]
    split
    · rename_i h1
      rw [preRollMoves_apply N hN C fs N]
      have h2 : N ≤ N ∧ N < C + N := by omega
      have h3 : ¬ (N ≤ j ∧ j < C + N) := by omega
      simp [h2, h3, h1]
    · rename_i h1
      rw [preRollMoves_apply N hN C fs j]
      split
      · rename_i h2
        have : ¬ (j < N) := by omega
        simp [this]
      · split
        · omega
        · rename_i h2 h3
          have : ¬ (j < N) := by omega
          simp [this]
  have key : ∀ j, apply_pre_post_roll fs C N M j =
      if C + N ≤ j ∧ j < C + N + M then fs (C - 1)
      else if N ≤ j ∧ j < C + N then fs (j - N)
      else if j < N then fs 0
      else fs j := by
    intro j
    unfold apply_pre_post_roll
    simp only [hN, if_pos]
    by_cases hM : 0 < M
    · simp only [hM, if_pos]
      rw [postRollCopies_apply (C + N - 1) (C + N) (by omega) M _ j]
      split
      · rename_i h1
        rw [hfs1 (C + N - 1)]
        have h2 : N ≤ C + N - 1 ∧ C + N - 1 < C + N := by omega
        have h3 : C + N ≤ j ∧ j < C + N + M := by omega
        have h4 : C + N - 1 - N = C - 1 := by omega
        simp [h2, h3, h4]
      · rename_i h1
        rw [hfs1 j]
    · have hM0 : ¬ (0 < M) := hM
      simp only [hM0, if_false]
      rw [hfs1 j]
      have h2 : ¬ (C + N ≤ j ∧ j < C + N + M) := by omega
      simp [h2]
  refine ⟨?_, ?_, ?_⟩
  · intro i hi
    have h1 : ¬ (C + N ≤ i + N ∧ i + N < C + N + M) := by omega
    have h2 : N ≤ i + N ∧ i + N < C + N := by omega
    have h3 : i + N - N = i := by omega
    rw [key (i + N), if_neg h1, if_pos h2, h3]
  · intro i hi
    have h1 : ¬ (C + N ≤ i ∧ i < C + N + M) := by omega
    have h2 : ¬ (N ≤ i ∧ i < C + N) := by omega
    rw [key i, if_neg h1, if_neg h2, if_pos hi]
  · intro i hi
    have h1 : C + N ≤ C + N + i ∧ C + N + i < C + N + M := by omega
    rw [key (C + N + i), if_pos h1]

/-- **C1 witness.** Three pre-roll frames on the concrete five-frame
sequence (with two post-roll frames): original frames 0 and 4 land at
slots 3 and 7, slot 0 holds a copy of the (new) frame 3's content, and the
post-roll slot 9 holds the last frame's content. -/
theorem apply_pre_post_roll_spec_witness :
    apply_pre_post_roll fiveFrames 5 3 2 3 = some 0 ∧
    apply_pre_post_roll fiveFrames 5 3 2 7 = some 4 ∧
    apply_pre_post_roll fiveFrames 5 3 2 0 = some 0 ∧
    apply_pre_post_roll fiveFrames 5 3 2 9 = some 4 := by
  have h := apply_pre_post_roll_spec fiveFrames 5 3 2 (by decide) (by decide)
  refine ⟨?_, ?_, ?_, ?_⟩
  · have := h.1 0 (by decide)
    simpa [fiveFrames] using this
  · have := h.1 4 (by decide)
    simpa [fiveFrames] using this
  · have := h.2.1 0 (by decide)
    simpa [fiveFrames] using this
  · have := h.2.2 1 (by decide)
    simpa [fiveFrames] using this

/-! ## FPS computation -/

/-- **C3.** FPS computation in duration-target mode: the FPS equals
`imageCount / run_length_seconds`, rounded to the nearest 0.001 and
clamped into `[min_fps, max_fps]`, and the `FPS` output token is the
string of the integer ceiling of that value (the unrounded clamped
rational itself is what `calculate_fps_value` returns for later use). -/
theorem calculate_fps_duration_spec (imageCount : ℕ)
    (fps run_length_seconds max_fps min_fps : ℚ) (h : min_fps ≤ max_fps) :
    calculate_fps_value "duration" fps run_length_seconds max_fps min_fps imageCount
      = min max_fps
          (max min_fps (round_to ((imageCount : ℚ) / run_length_seconds) (1 / 1000))) ∧
    fps_token (calculate_fps_value "duration" fps run_length_seconds max_fps min_fps imageCount)
      = toString
          ((⌈min max_fps
              (max min_fps (round_to ((imageCount : ℚ) / run_length_seconds) (1 / 1000)))⌉ : ℤ)) := by
  have key : calculate_fps_value "duration" fps run_length_seconds max_fps min_fps imageCount
      = min max_fps
          (max min_fps (round_to ((imageCount : ℚ) / run_length_seconds) (1 / 1000))) := by
    unfold calculate_fps_value
    rw [if_pos rfl]
    show (if round_to ((imageCount : ℚ) / run_length_seconds) (1 / 1000) > max_fps then max_fps
      else if round_to ((imageCount : ℚ) / run_length_seconds) (1 / 1000) < min_fps then min_fps
      else round_to ((imageCount : ℚ) / run_length_seconds) (1 / 1000)) = _
    set f := round_to ((imageCount : ℚ) / run_length_seconds) (1 / 1000) with hf
    split_ifs with h1 h2
    · rw [max_eq_right (h.trans h1.le), min_eq_left h1.le]
    · rw [max_eq_left h2.le, min_eq_right h]
    · rw [max_eq_right (not_lt.mp h2), min_eq_right (not_lt.mp h1)]
  exact ⟨key, by rw [key]; rfl⟩

/-- **C3 witness.** `imageCount = 100`, `run_length_seconds = 10`,
`min_fps = 1`, `max_fps = 30`: the raw FPS is 10, within bounds, and the
`FPS` token is the string `10`. -/
theorem calculate_fps_duration_spec_witness :
    (1 : ℚ) ≤ 30 ∧
    calculate_fps_value "duration" 0 10 30 1 100
      = min 30 (max 1 (round_to (((100 : ℕ) : ℚ) / 10) (1 / 1000))) ∧
    calculate_fps_value "duration" 0 10 30 1 100 = 10 ∧
    fps_token (calculate_fps_value "duration" 0 10 30 1 100) = "10" := by
  have h := calculate_fps_duration_spec 100 0 10 30 1 (by norm_num)
  refine ⟨by norm_num, h.1, ?_, ?_⟩
  · rw [h.1]
    norm_num [round_to, round_eq]
  · rw [h.2]
    norm_num [round_to, round_eq]
    rfl

/-! ## Output-path collision avoidance -/

theorem collisionSearch_eq (occupied : ℕ → Bool) :
    ∀ (fuel n k : ℕ), k < fuel →
      (∀ m, m < k → occupied (n + m) = true) → occupied (n + k) = false →
      collisionSearch occupied fuel n = n + k := by
  intro fuel
  induction fuel with
  | zero =>
      intro n k hk
      omega
  | succ fuel ih =>
      intro n k hk hocc hfree
      show (if occupied n then collisionSearch occupied fuel (n + 1) else n) = n + k
      cases k with
      | zero =>
          simp only [Nat.add_zero] at hfree
          simp [hfree]
      | succ k =>
          have h0 : occupied n = true := by
            have := hocc 0 (by omega)
            simpa using this
          rw [if_pos h0]
          rw [ih (n + 1) k (by omega)
            (fun m hm => by
              have := hocc (m + 1) (by omega)
              simpa [Nat.add_assoc, Nat.add_comm 1 m] using this)
            (by simpa [Nat.add_assoc, Nat.add_comm 1 k] using hfree)]
          omega

/-- **C4.** Output-path collision avoidance: when `p` is the least file
number whose primary candidate path is free and `q` the least file number
whose synchronized candidate path is free, the primary output filename is
candidate `p` and the synchronized filename is candidate `q` — each loop
scans `0, 1, 2, …` independently, both restarting from the same original
base name, whose candidates are `base` and then `base_N`. -/
theorem set_outputs_collision_spec (isfile : String → Bool) (fuel : ℕ)
    (data_directory octoprint_timelapse_folder base ext : String) (p q : ℕ)
    (hp : p < fuel) (hq : q < fuel)
    (hpOcc : ∀ m, m < p →
      isfile ((data_directory ++ osSep ++ "timelapse" ++ osSep)
        ++ candidateName base m ++ "." ++ ext) = true)
    (hpFree : isfile ((data_directory ++ osSep ++ "timelapse" ++ osSep)
        ++ candidateName base p ++ "." ++ ext) = false)
    (hqOcc : ∀ m, m < q →
      isfile (octoprint_timelapse_folder ++ osSep ++ candidateName base m ++ "." ++ ext) = true)
    (hqFree : isfile (octoprint_timelapse_folder ++ osSep ++ candidateName base q
        ++ "." ++ ext) = false) :
    (set_outputs_resolve isfile fuel data_directory octoprint_timelapse_folder base ext).output_filename
        = candidateName base p ∧
    (set_outputs_resolve isfile fuel data_directory octoprint_timelapse_folder base ext).synchronized_filename
        = candidateName base q ∧
    candidateName base 0 = base ∧
    (∀ n, candidateName base (n + 1) = base ++ "_" ++ toString (n + 1)) := by
  have h1 : collisionSearch
      (fun n => isfile ((data_directory ++ osSep ++ "timelapse" ++ osSep)
        ++ candidateName base n ++ "." ++ ext)) fuel 0 = p := by
    have := collisionSearch_eq
      (fun n => isfile ((data_directory ++ osSep ++ "timelapse" ++ osSep)
        ++ candidateName base n ++ "." ++ ext)) fuel 0 p hp
      (fun m hm => by simpa using hpOcc m hm) (by simpa using hpFree)
    simpa using this
  have h2 : collisionSearch
      (fun n => isfile (octoprint_timelapse_folder ++ osSep ++ candidateName base n
        ++ "." ++ ext)) fuel 0 = q := by
    have := collisionSearch_eq
      (fun n => isfile (octoprint_timelapse_folder ++ osSep ++ candidateName base n
        ++ "." ++ ext)) fuel 0 q hq
      (fun m hm => by simpa using hqOcc m hm) (by simpa using hqFree)
    simpa using this
  refine ⟨?_, ?_, rfl, fun n => rfl⟩
  · show candidateName base (collisionSearch _ fuel 0) = candidateName base p
    rw [h1]
  · show candidateName base (collisionSearch _ fuel 0) = candidateName base q
    rw [h2]

/-- **C4 witness.** With `render.mp4` and `render_1.mp4` already present
in the primary output directory and the synchronized folder empty, the
primary destination resolves to `render_2` while the synchronized
destination independently resolves to `render`. -/
theorem set_outputs_collision_spec_witness :
    (set_outputs_resolve demoIsFile 10 "/data" "/octo" "render" "mp4").output_filename
        = "render_2" ∧
    (set_outputs_resolve demoIsFile 10 "/data" "/octo" "render" "mp4").synchronized_filename
        = "render" := by
  have h := set_outputs_collision_spec demoIsFile 10 "/data" "/octo" "render" "mp4" 2 0
    (by decide) (by decide) (by decide) (by decide) (by decide) (by decide)
  exact ⟨h.1, h.2.1⟩

/-! ## Output filename template failure handling -/

/-- **C5 counterexample.** The claim fails on the code: a `ValueError`
raised while expanding the output filename template is caught by
`_set_outputs` and silently replaced by the placeholder output name
`RenderingFilenameTemplateError` instead of being reported as an error. -/
theorem set_output_filename_counterexample :
    set_output_filename (Except.error FormatError.valueError)
      = Except.ok "RenderingFilenameTemplateError" ∧
    (set_output_filename (Except.error FormatError.valueError)).isOk = true :=
  ⟨rfl, rfl⟩

/-- **C5 (amended).** Unknown-token (`KeyError`) and integer-token
(`IndexError`) substitution failures propagate out of `_set_outputs` as
errors, but an other formatting error (`ValueError`) is caught and
silently yields the placeholder output name
`RenderingFilenameTemplateError`; a successful expansion is used as-is. -/
theorem set_output_filename_spec (t : String) :
    set_output_filename (Except.error (FormatError.keyError t))
        = Except.error (FormatError.keyError t) ∧
    set_output_filename (Except.error FormatError.indexError)
        = Except.error FormatError.indexError ∧
    set_output_filename (Except.error FormatError.valueError)
        = Except.ok "RenderingFilenameTemplateError" ∧
    (∀ s, set_output_filename (Except.ok s) = Except.ok s) :=
  ⟨rfl, rfl, rfl, fun _ => rfl⟩

/-- **C5 witness.** The amended behavior at the concrete unknown token
`FOO`: the failure propagates as a `KeyError`. -/
theorem set_output_filename_spec_witness :
    set_output_filename (Except.error (FormatError.keyError "FOO"))
      = Except.error (FormatError.keyError "FOO") :=
  (set_output_filename_spec "FOO").1

/-! ## Overlay draw-origin computation -/

/-- **C7.** Overlay draw-origin computation: `top`/`left` add zero offset
to the configured `(x, y)`; `middle`/`center` add half the image
dimension minus half the measured text extent; `bottom`/`right` add the
image dimension minus the text extent; any unrecognized vertical
(resp. horizontal) alignment yields a `RenderError` of kind
`overlay-text-valign` (resp. `overlay-text-halign`) rather than silently
defaulting to some origin. -/
theorem add_overlay_origin_spec (w h tw th : ℕ) (x y : ℤ) (va ha : String) :
    (va = "top" → ha = "left" →
      add_overlay_origin w h tw th x y va ha = Except.ok (x, y)) ∧
    (va = "middle" → ha = "center" →
      add_overlay_origin w h tw th x y va ha
        = Except.ok (x + ((w / 2 : ℕ) : ℤ) - ((tw / 2 : ℕ) : ℤ),
            y + ((h / 2 : ℕ) : ℤ) - ((th / 2 : ℕ) : ℤ))) ∧
    (va = "bottom" → ha = "right" →
      add_overlay_origin w h tw th x y va ha
        = Except.ok (x + (w : ℤ) - (tw : ℤ), y + (h : ℤ) - (th : ℤ))) ∧
    (va ≠ "top" → va ≠ "middle" → va ≠ "bottom" →
      add_overlay_origin w h tw th x y va ha
        = Except.error
            { type := "overlay-text-valign"
              message := "An invalid overlay text valign (" ++ va ++ ") was specified." }) ∧
    ((va = "top" ∨ va = "middle" ∨ va = "bottom") →
      ha ≠ "left" → ha ≠ "center" → ha ≠ "right" →
      add_overlay_origin w h tw th x y va ha
        = Except.error
            { type := "overlay-text-halign"
              message := "An invalid overlay text halign (" ++ ha ++ ") was specified." }) := by
  refine ⟨?_, ?_, ?_, ?_, ?_⟩
  · intro hva hha
    subst hva hha
    rfl
  · intro hva hha
    subst hva hha
    rfl
  · intro hva hha
    subst hva hha
    rfl
  · intro hva1 hva2 hva3
    unfold add_overlay_origin
    rw [if_neg hva1, if_neg hva2, if_neg hva3]
  · intro hva hha1 hha2 hha3
    rcases hva with hva | hva | hva <;>
    · subst hva
      unfold add_overlay_origin
      rw [if_neg hha1, if_neg hha2, if_neg hha3]
      rfl

/-- **C7 witness.** Concrete instances: on a 640×480 image with a
100×20 text extent at configured position (10, 10), `middle`/`center`
centers the extent; `top`/`left` leaves (10, 10); an unknown valign
`above` raises kind `overlay-text-valign`. -/
theorem add_overlay_origin_spec_witness :
    add_overlay_origin 640 480 100 20 10 10 "middle" "center" = Except.ok (280, 240) ∧
    add_overlay_origin 640 480 100 20 10 10 "top" "left" = Except.ok (10, 10) ∧
    add_overlay_origin 640 480 100 20 10 10 "above" "left"
      = Except.error
          { type := "overlay-text-valign"
            message := "An invalid overlay text valign (above) was specified." } := by
  refine ⟨?_, ?_, ?_⟩
  · have h := (add_overlay_origin_spec 640 480 100 20 10 10 "middle" "center").2.1 rfl rfl
    rw [h]
    norm_num
  · exact (add_overlay_origin_spec 640 480 100 20 10 10 "top" "left").1 rfl rfl
  · have h := (add_overlay_origin_spec 640 480 100 20 10 10 "above" "left").2.2.2.1
      (by decide) (by decide) (by decide)
    rw [h]
    rfl

/-! ## Job queue processor: FIFO order and jobs_remaining snapshot -/

/-- **C8.** For a queue drained without concurrent enqueues, jobs are
processed in FIFO order and the `i`-th processed job is stamped with
`job_number = job_count + i + 1` and with
`jobs_remaining = length - i - 1`, the queue depth observed at its
dequeue; the stamps are recorded once and never updated. -/
theorem processorRun_spec {α : Type} (queue : List α) (job_count i : ℕ) :
    (processorRun queue job_count).length = queue.length ∧
    (processorRun queue job_count)[i]?
      = (queue[i]?).map (fun job => (job, job_count + i + 1, queue.length - i - 1)) := by
  induction queue generalizing job_count i with
  | nil => simp [processorRun]
  | cons job rest ih =>
      refine ⟨?_, ?_⟩
      · simpa [processorRun] using (ih (job_count + 1) 0).1
      · cases i with
        | zero => simp [processorRun]
        | succ i =>
            have h1 : job_count + 1 + i + 1 = job_count + (i + 1) + 1 := by omega
            have h2 : rest.length - i - 1 = rest.length + 1 - (i + 1) - 1 := by omega
            simp only [processorRun, List.getElem?_cons_succ, List.length_cons]
            rw [(ih (job_count + 1) i).2]
            simp only [h1, h2]

/-- **C8 witness.** Draining the concrete queue `[10, 20, 30]` from a
fresh counter: FIFO order, with `jobs_remaining` snapshots 2, 1, 0. -/
theorem processorRun_spec_witness :
    (processorRun ([10, 20, 30] : List ℕ) 0)[0]? = some (10, 1, 2) ∧
    (processorRun ([10, 20, 30] : List ℕ) 0)[1]? = some (20, 2, 1) ∧
    (processorRun ([10, 20, 30] : List ℕ) 0)[2]? = some (30, 3, 0) := by
  refine ⟨?_, ?_, ?_⟩
  · have h := (processorRun_spec ([10, 20, 30] : List ℕ) 0 0).2
    simpa using h
  · have h := (processorRun_spec ([10, 20, 30] : List ℕ) 0 1).2
    simpa using h
  · have h := (processorRun_spec ([10, 20, 30] : List ℕ) 0 2).2
    simpa using h

/-! ## Encoder filter-chain and command construction -/

/-- **C9.** Encoder filter-chain construction: without a watermark the
filter string is the single pixel-format stage labelled `[f0] → [out]`;
with a watermark a movie-overlay stage anchored at `overlay=10:main_h-overlay_h-10`
(10 from the left, 10 from the bottom) is appended and the labels chain
sequentially `f0 → f1 → out`; the resulting string is passed to the
encoder command as the `-vf` argument (after shell quoting), between the
codec arguments and the quoted output file. -/
theorem create_filter_string_spec (shell_quote : String → String) (ffmpeg : String)
    (fps : ℚ) (threads : ℕ)
    (bitrate output_format input_file_format output_file wm pix_fmt : String) :
    create_filter_string none pix_fmt
      = "[" ++ "f0" ++ "] format=" ++ pix_fmt ++ " [" ++ "out" ++ "]" ∧
    create_filter_string (some wm) pix_fmt
      = "[" ++ "f0" ++ "] format=" ++ pix_fmt ++ " [" ++ "f1" ++ "]" ++ "; "
          ++ "movie=" ++ wm ++ " [wm]; [" ++ "f1"
          ++ "][wm] overlay=10:main_h-overlay_h-10 [" ++ "out" ++ "]" ∧
    (∀ watermark : Option String,
      create_ffmpeg_command shell_quote ffmpeg fps threads bitrate output_format
          input_file_format output_file watermark pix_fmt
        = [ffmpeg, "-framerate", toString fps, "-loglevel", "error", "-i",
            "\"" ++ input_file_format ++ "\"", "-threads", toString threads, "-r",
            toString fps, "-y", "-b", bitrate, "-vcodec",
            get_vcodec_from_output_format output_format, "-vf",
            shell_quote (create_filter_string watermark pix_fmt),
            "\"" ++ output_file ++ "\""]) := by
  have h0 : toString (0 : ℕ) = "0" := rfl
  have h1 : toString (1 : ℕ) = "1" := rfl
  have m0 : ∀ s : String, "f" ++ ("0" ++ s) = "f0" ++ s := by
    intro s
    rw [← String.append_assoc]
    rfl
  have m1 : ∀ s : String, "f" ++ ("1" ++ s) = "f1" ++ s := by
    intro s
    rw [← String.append_assoc]
    rfl
  refine ⟨?_, ?_, ?_⟩
  · simp only [create_filter_string, filter_templates, filter_names]
    norm_num [List.range_succ, String.intercalate, String.intercalate.go, h0, h1, m0, m1,
      String.append_assoc]
  · simp only [create_filter_string, filter_templates, filter_names]
    norm_num [List.range_succ, String.intercalate, String.intercalate.go, h0, h1, m0, m1,
      String.append_assoc]
  · intro watermark
    simp [create_ffmpeg_command]

/-- **C9 witness.** The command list for a concrete job with a watermark
configured carries the chained two-stage filter string as the `-vf`
argument. -/
theorem create_filter_string_spec_witness :
    create_filter_string (some "/w.png") "yuv420p"
      = "[f0] format=yuv420p [f1]; movie=/w.png [wm]; [f1][wm] overlay=10:main_h-overlay_h-10 [out]" ∧
    create_ffmpeg_command (fun s => s) "/usr/bin/ffmpeg" 25 1 "8000K" "mp4"
        "/tmp/%06d.jpg" "/data/timelapse/render.mp4" (some "/w.png") "yuv420p"
      = ["/usr/bin/ffmpeg", "-framerate", "25", "-loglevel", "error", "-i",
          "\"/tmp/%06d.jpg\"", "-threads", "1", "-r", "25", "-y", "-b", "8000K",
          "-vcodec", "mpeg4", "-vf",
          "[f0] format=yuv420p [f1]; movie=/w.png [wm]; [f1][wm] overlay=10:main_h-overlay_h-10 [out]",
          "\"/data/timelapse/render.mp4\""] := by
  have h := create_filter_string_spec (fun s => s) "/usr/bin/ffmpeg" 25 1 "8000K" "mp4"
    "/tmp/%06d.jpg" "/data/timelapse/render.mp4" "/w.png" "yuv420p"
  constructor
  · rw [h.2.1]
    rfl
  · rw [h.2.2 (some "/w.png"), h.2.1]
    rfl

/-! ## Pipeline helper lemmas -/

theorem pre_render_state (env : RenderEnv) (s : JobState) :
    (pre_render env s).1.before_render_error = s.before_render_error ∧
    (pre_render env s).1.after_render_error = s.after_render_error := by
  constructor <;>
  · simp only [pre_render]
    split_ifs <;> first
      | rfl
      | (split <;> rfl)

theorem pre_render_insufficient (env : RenderEnv) (s : JobState)
    (h : env.imageCount = 0 ∨ env.imageCount = 1 ∨
      calculate_fps_value env.fps_calculation_type env.fps env.run_length_seconds
        env.max_fps env.min_fps env.imageCount < 1) :
    ∃ msg, (pre_render env s).2 = some (PyError.renderError
      { type := "insufficient-images", message := msg, cause := none }) := by
  by_cases h0 : env.imageCount = 0
  · exact ⟨"No snapshots were found for the " ++ env.camera_name ++ " camera profile.",
      by simp [pre_render, h0]⟩
  by_cases h1 : env.imageCount = 1
  · exact ⟨"Only 1 frame was captured, cannot make a timelapse with a single frame.",
      by simp [pre_render, h0, h1]⟩
  have hf : calculate_fps_value env.fps_calculation_type env.fps env.run_length_seconds
      env.max_fps env.min_fps env.imageCount < 1 := by
    rcases h with h | h | h
    · exact absurd h h0
    · exact absurd h h1
    · exact h
  exact ⟨"The calculated FPS is below 1, which is not allowed. Please check the rendering settings for Min and Max FPS as well as the number of snapshots captured.",
    by simp [pre_render, h0, h1, hf]⟩

theorem pre_render_no_error (env : RenderEnv) (s : JobState)
    (h0 : env.imageCount ≠ 0) (h1 : env.imageCount ≠ 1)
    (hf : ¬ calculate_fps_value env.fps_calculation_type env.fps env.run_length_seconds
      env.max_fps env.min_fps env.imageCount < 1)
    (hfmt : (set_output_filename env.output_template_result).isOk = true) :
    (pre_render env s).2 = none := by
  rcases hok : set_output_filename env.output_template_result with e | v
  · rw [hok] at hfmt
    simp [Except.isOk, Except.toBool] at hfmt
  · simp [pre_render, h0, h1, hf, hok]

theorem encode_and_finish_before (env : RenderEnv) (s : JobState) :
    (encode_and_finish env s).1.before_render_error = s.before_render_error := by
  unfold encode_and_finish
  rcases he : env.encoder_launch with c | rc
  · rfl
  · by_cases hrc : rc = 0
    · simp only [hrc, ne_eq, not_true_eq_false, if_false]
      by_cases hsy : env.sync_with_timelapse
      · rcases hse : env.sync_error <;> simp [hsy, hse]
      · simp [hsy]
    · simp [hrc]

theorem encode_and_finish_none_after (env : RenderEnv) (s : JobState)
    (h : (encode_and_finish env s).2 = none) :
    (encode_and_finish env s).1.after_render_error
      = post_render_script env.after_script_cmd env.after_script_result := by
  unfold encode_and_finish at h ⊢
  rcases he : env.encoder_launch with c | rc
  · rw [he] at h
    simp at h
  · rw [he] at h
    by_cases hrc : rc = 0
    · simp only [hrc, ne_eq, not_true_eq_false, if_false] at h ⊢
      by_cases hsy : env.sync_with_timelapse
      · rcases hse : env.sync_error with _ | c2
        · simp [hsy, hse]
        · rw [hse] at h
          simp [hsy] at h
      · simp [hsy]
    · simp [hrc] at h

theorem encode_and_finish_rc_zero_after (env : RenderEnv) (s : JobState)
    (h0 : env.encoder_launch = Except.ok 0) :
    (encode_and_finish env s).1.after_render_error
      = post_render_script env.after_script_cmd env.after_script_result := by
  unfold encode_and_finish
  rw [h0]
  by_cases hsy : env.sync_with_timelapse
  · rcases hse : env.sync_error <;> simp [hsy, hse]
  · simp [hsy]

theorem encode_and_finish_ok (env : RenderEnv) (s : JobState)
    (h0 : env.encoder_launch = Except.ok 0)
    (hs : env.sync_with_timelapse = true → env.sync_error = none) :
    (encode_and_finish env s).2 = none := by
  unfold encode_and_finish
  rw [h0]
  by_cases hsy : env.sync_with_timelapse
  · rw [hs hsy]
    simp [hsy]
  · simp [hsy]

theorem render_checks_ok (env : RenderEnv) (s : JobState) (f b : String)
    (hf : env.ffmpeg = some f) (hb : env.bitrate = some b)
    (hm : env.makedirs_error = none)
    (hw : env.enable_watermark = true →
      env.selected_watermark ≠ "" ∧ env.watermark_exists env.selected_watermark = true) :
    ∃ wp, render_checks env s = Except.ok (f, b, wp) := by
  unfold render_checks
  rw [hf, hb, hm]
  by_cases hew : env.enable_watermark
  · obtain ⟨hw1, hw2⟩ := hw hew
    exact ⟨some env.selected_watermark, by simp [hew, hw1, hw2]⟩
  · exact ⟨none, by simp [hew]⟩

theorem render_body_cases (env : RenderEnv) (s : JobState) :
    (render_body env s).state.before_render_error = s.before_render_error ∧
    ((render_body env s).err = none →
      (render_body env s).state.after_render_error
        = post_render_script env.after_script_cmd env.after_script_result) ∧
    (∀ p, (render_body env s).start_payload = some p → p.ReturnCode = 0) := by
  have hpre := (pre_render_state env s).1
  rcases hp : pre_render env s with ⟨s1, e1⟩
  rw [hp] at hpre
  dsimp only at hpre
  cases e1 with
  | some e =>
      have hb : render_body env s =
          { state := s1, start_payload := none, encoder_reached := false
            encoder_command := none, err := some e } := by
        simp [render_body, hp]
      rw [hb]
      exact ⟨hpre, by simp, by simp⟩
  | none =>
    rcases hrc : render_checks env { s1 with temp_rendering_dir := some "octolapse_render" }
      with e | ⟨fp, bt, wp⟩
    · have hb : render_body env s =
          { state := { s1 with temp_rendering_dir := some "octolapse_render" }
            start_payload := some (create_callback_payload env s1 0 "Starting to render timelapse.")
            encoder_reached := false, encoder_command := none, err := some e } := by
        simp [render_body, hp, hrc]
      rw [hb]
      refine ⟨hpre, by simp, ?_⟩
      intro p hsome
      cases hsome
      rfl
    · rcases hpp : env.preprocess_error with _ | c
      · rcases he : encode_and_finish env
            { s1 with temp_rendering_dir := some "octolapse_render" } with ⟨s3, e3⟩
        have heb := encode_and_finish_before env
          { s1 with temp_rendering_dir := some "octolapse_render" }
        rw [he] at heb
        dsimp only at heb
        have hb : render_body env s =
            { state := s3
              start_payload := some (create_callback_payload env s1 0 "Starting to render timelapse.")
              encoder_reached := true
              encoder_command := some (create_ffmpeg_command_string env.shell_quote fp
                (({ s1 with temp_rendering_dir := some "octolapse_render" } : JobState).fps.getD 0)
                env.thread_count bt env.output_format
                ("octolapse_render" ++ osSep ++ env.snapshot_filename_format)
                ({ s1 with
                    temp_rendering_dir := some "octolapse_render" } : JobState).rendering_output_file_path
                wp "yuv420p")
              err := e3 } := by
          cases e3 <;> simp [render_body, hp, hrc, hpp, he]
        rw [hb]
        refine ⟨heb.trans hpre, ?_, ?_⟩
        · intro hnone
          dsimp only at hnone
          have he2 : (encode_and_finish env
              { s1 with temp_rendering_dir := some "octolapse_render" }).2 = none := by
            rw [he]
            exact hnone
          have hea := encode_and_finish_none_after env
            { s1 with temp_rendering_dir := some "octolapse_render" } he2
          rw [he] at hea
          dsimp only at hea
          exact hea
        · intro p hsome
          cases hsome
          rfl
      · have hb : render_body env s =
            { state := { s1 with temp_rendering_dir := some "octolapse_render" }
              start_payload := some (create_callback_payload env s1 0 "Starting to render timelapse.")
              encoder_reached := false, encoder_command := none
              err := some (PyError.raw c) } := by
          simp [render_body, hp, hrc, hpp]
        rw [hb]
        refine ⟨hpre, by simp, ?_⟩
        intro p hsome
        cases hsome
        rfl

theorem render_body_stages (env : RenderEnv) (s : JobState)
    (h : stages_before_encoder_ok env) :
    ∃ s2 : JobState,
      (render_body env s).state = (encode_and_finish env s2).1 ∧
      (render_body env s).err = (encode_and_finish env s2).2 ∧
      (render_body env s).encoder_reached = true := by
  obtain ⟨h2, hf, hfmt, hffm, hbit, hmk, hwm, hpp⟩ := h
  obtain ⟨fp, hfp⟩ := Option.isSome_iff_exists.mp hffm
  obtain ⟨bt, hbt⟩ := Option.isSome_iff_exists.mp hbit
  rcases hp : pre_render env s with ⟨s1, e1⟩
  have he1 : e1 = none := by
    have hn := pre_render_no_error env s (by omega) (by omega) hf hfmt
    rw [hp] at hn
    exact hn
  subst he1
  obtain ⟨wp, hrc⟩ := render_checks_ok env
    { s1 with temp_rendering_dir := some "octolapse_render" } fp bt hfp hbt hmk hwm
  refine ⟨{ s1 with temp_rendering_dir := some "octolapse_render" }, ?_, ?_, ?_⟩ <;>
  · rcases he : encode_and_finish env
        { s1 with temp_rendering_dir := some "octolapse_render" } with ⟨s3, e3⟩
    cases e3 <;> simp [render_body, hp, hrc, hpp, he]

theorem pre_render_script_kind (script : String)
    (result : Except String (ℤ × String × String)) :
    ∀ e, pre_render_script script result = some e →
      e.type = "before_render_script_error" := by
  intro e he
  rcases result with c | ⟨rc, out, serr⟩ <;>
    simp only [pre_render_script] at he <;>
    split_ifs at he <;>
    · cases he
      rfl

theorem post_render_script_kind (script : String)
    (result : Except String (ℤ × String × String)) :
    ∀ e, post_render_script script result = some e →
      e.type = "after_render_script_error" := by
  intro e he
  rcases result with c | ⟨rc, out, serr⟩ <;>
    simp only [post_render_script] at he <;>
    split_ifs at he <;>
    · cases he
      rfl

/-! ## Pipeline claim theorems -/

/-- **C2.** A job with 0 or 1 discovered frames, or with computed FPS
below 1, fails with a `RenderError` of kind `insufficient-images`, the
error callback fires (never the success callback), and the
encoder-command construction and invocation step is never reached. -/
theorem render_insufficient_images_spec (env : RenderEnv)
    (h : env.imageCount = 0 ∨ env.imageCount = 1 ∨
      calculate_fps_value env.fps_calculation_type env.fps env.run_length_seconds
        env.max_fps env.min_fps env.imageCount < 1) :
    (render env).encoder_reached = false ∧
    (render env).encoder_command = none ∧
    (render env).success = none ∧
    ∃ p e, (render env).failure = some (p, e) ∧ e.type = "insufficient-images" := by
  obtain ⟨msg, hmsg⟩ := pre_render_insufficient env (initial_state env) h
  rcases hp : pre_render env (initial_state env) with ⟨sx, ex⟩
  rw [hp] at hmsg
  dsimp only at hmsg
  subst hmsg
  have hb : render_body env (initial_state env) =
      { state := sx, start_payload := none, encoder_reached := false
        encoder_command := none
        err := some (PyError.renderError
          { type := "insufficient-images", message := msg, cause := none }) } := by
    simp [render_body, hp]
  refine ⟨?_, ?_, ?_, ?_⟩
  · simp [render, hb]
  · simp [render, hb]
  · simp [render, hb]
  · refine ⟨create_callback_payload env sx 0 "The render process failed.",
      { type := "insufficient-images", message := msg, cause := none }, ?_, rfl⟩
    simp [render, hb, normalizeError]

/-- **C2 witness.** A camera profile with zero captured frames: the run
fails with kind `insufficient-images` and never reaches the encoder. -/
theorem render_insufficient_images_spec_witness :
    noFramesEnv.imageCount = 0 ∧
    (render noFramesEnv).encoder_reached = false ∧
    (render noFramesEnv).encoder_command = none ∧
    (render noFramesEnv).success = none ∧
    ((render noFramesEnv).failure.map (fun pe => pe.2.type)) = some "insufficient-images" := by
  have h := render_insufficient_images_spec noFramesEnv (Or.inl rfl)
  refine ⟨rfl, h.1, h.2.1, h.2.2.1, ?_⟩
  obtain ⟨p, e, hfe, hty⟩ := h.2.2.2
  rw [hfe]
  simp [hty]

/-- **C6.** Script-stage error containment: whatever error the
before-render (resp. after-render) script stage captures has kind
`before_render_script_error` (resp. `after_render_script_error`); exactly
one of the success/error terminal callbacks fires; the terminal payload
carries the captured before-script error either way (and, on success,
the captured after-script error); once the after-render script stage has
run (the encoder exited 0), the captured after-script error is attached
to the terminal payload regardless of which callback fires — in
particular a later synchronization failure fires the error callback
still carrying it; and if every non-script stage succeeds the outcome is
SUCCESS regardless of the script results, so a script error alone never
turns SUCCESS into FAILED. -/
theorem render_script_error_spec (env : RenderEnv) :
    (∀ e, pre_render_script env.before_script_cmd env.before_script_result = some e →
      e.type = "before_render_script_error") ∧
    (∀ e, post_render_script env.after_script_cmd env.after_script_result = some e →
      e.type = "after_render_script_error") ∧
    (((render env).success.isSome = true ∧ (render env).failure = none) ∨
      ((render env).success = none ∧ (render env).failure.isSome = true)) ∧
    (∀ p, (render env).success = some p →
      p.BeforeRenderError = pre_render_script env.before_script_cmd env.before_script_result ∧
      p.AfterRenderError = post_render_script env.after_script_cmd env.after_script_result) ∧
    (∀ p e, (render env).failure = some (p, e) →
      p.BeforeRenderError = pre_render_script env.before_script_cmd env.before_script_result) ∧
    (stages_before_encoder_ok env → env.encoder_launch = Except.ok 0 →
      (∀ p, (render env).success = some p →
        p.AfterRenderError
          = post_render_script env.after_script_cmd env.after_script_result) ∧
      (∀ p e, (render env).failure = some (p, e) →
        p.AfterRenderError
          = post_render_script env.after_script_cmd env.after_script_result)) ∧
    (non_script_stages_ok env →
      (render env).failure = none ∧ (render env).success.isSome = true) := by
  obtain ⟨hbref, hafter, _⟩ := render_body_cases env (initial_state env)
  refine ⟨pre_render_script_kind _ _, post_render_script_kind _ _, ?_, ?_, ?_, ?_, ?_⟩
  · cases hb : (render_body env (initial_state env)).err with
    | none =>
        left
        simp [render, hb]
    | some e =>
        right
        simp [render, hb]
  · intro p hps
    cases hb : (render_body env (initial_state env)).err with
    | some e => simp [render, hb] at hps
    | none =>
        simp [render, hb] at hps
        subst hps
        exact ⟨hbref.trans rfl, (hafter hb).trans rfl⟩
  · intro p e hpe
    cases hb : (render_body env (initial_state env)).err with
    | none => simp [render, hb] at hpe
    | some e2 =>
        simp [render, hb] at hpe
        obtain ⟨hp1, hp2⟩ := hpe
        subst hp1
        exact hbref.trans rfl
  · intro hstages h0
    obtain ⟨s2, hst, herr, hreach⟩ := render_body_stages env (initial_state env) hstages
    have hba : (render_body env (initial_state env)).state.after_render_error
        = post_render_script env.after_script_cmd env.after_script_result := by
      rw [hst]
      exact encode_and_finish_rc_zero_after env s2 h0
    constructor
    · intro p hps
      cases hb : (render_body env (initial_state env)).err with
      | some e => simp [render, hb] at hps
      | none =>
          simp [render, hb] at hps
          subst hps
          exact hba
    · intro p e hpe
      cases hb : (render_body env (initial_state env)).err with
      | none => simp [render, hb] at hpe
      | some e2 =>
          simp [render, hb] at hpe
          obtain ⟨hp1, hp2⟩ := hpe
          subst hp1
          exact hba
  · intro hok
    obtain ⟨hstages, henc, hsync⟩ := hok
    obtain ⟨s2, hst, herr, hreach⟩ := render_body_stages env (initial_state env) hstages
    have hnone : (render_body env (initial_state env)).err = none := by
      rw [herr]
      exact encode_and_finish_ok env s2 henc hsync
    simp [render, hnone]

/-- **C6 witness.** Two concrete runs.  A healthy pipeline whose
before-render script exits with code 1 and error text `boom`: the
success callback fires, not the error callback, and the success payload
carries the captured script error of kind `before_render_script_error`.
A pipeline whose after-render script fails the same way and whose
synchronization step then raises: the error callback fires, and its
payload still carries the captured after-script error. -/
theorem render_script_error_spec_witness :
    (render scriptFailEnv).failure = none ∧
    ((render scriptFailEnv).success.map (fun p => p.BeforeRenderError))
      = some (some
          { type := "before_render_script_error"
            message := "The before-render script failed with the following error message: boom"
            cause := none }) ∧
    (render syncFailEnv).success = none ∧
    ((render syncFailEnv).failure.map (fun pe => pe.1.AfterRenderError))
      = some (some
          { type := "after_render_script_error"
            message := "The after-render script failed with the following error message: boom"
            cause := none }) := by
  have h := render_script_error_spec scriptFailEnv
  have hok : non_script_stages_ok scriptFailEnv := by
    unfold non_script_stages_ok stages_before_encoder_ok
    decide
  obtain ⟨hfail, hsucc⟩ := h.2.2.2.2.2.2 hok
  have h2 := render_script_error_spec syncFailEnv
  have hsnone : (render syncFailEnv).success = none := by decide
  refine ⟨hfail, ?_, hsnone, ?_⟩
  · obtain ⟨p, hp⟩ := Option.isSome_iff_exists.mp hsucc
    have hfields := h.2.2.2.1 p hp
    rw [hp]
    simp only [Option.map_some']
    rw [hfields.1]
    decide
  · rcases h2.2.2.1 with ⟨hs, _⟩ | ⟨_, hf⟩
    · rw [hsnone] at hs
      simp at hs
    · obtain ⟨⟨p, e⟩, hpe⟩ := Option.isSome_iff_exists.mp hf
      have hafter := (h2.2.2.2.2.2.1
        (by unfold stages_before_encoder_ok; decide) rfl).2 p e hpe
      rw [hpe]
      simp only [Option.map_some']
      rw [hafter]
      decide

/-- **C10.** Every callback payload the pipeline constructs — prerender,
render-start, success, and error alike — carries return code 0; when the
encoder exits non-zero, the error callback's payload still has return
code 0 and the encoder's exit code is carried only inside the
`return-code` `RenderError` message. -/
theorem render_payload_return_code_spec (env : RenderEnv) :
    (render env).prerender_payload.ReturnCode = 0 ∧
    (∀ p, (render env).start_payload = some p → p.ReturnCode = 0) ∧
    (∀ p, (render env).success = some p → p.ReturnCode = 0) ∧
    (∀ p e, (render env).failure = some (p, e) → p.ReturnCode = 0) ∧
    (∀ rc : ℤ, env.encoder_launch = Except.ok rc → rc ≠ 0 →
      stages_before_encoder_ok env →
      ∃ p, (render env).failure = some (p,
        { type := "return-code"
          message := "Could not render movie, got return code " ++ toString rc
            ++ ": " ++ env.encoder_stderr
          cause := none }) ∧ p.ReturnCode = 0) := by
  obtain ⟨_, _, hstart⟩ := render_body_cases env (initial_state env)
  refine ⟨?_, ?_, ?_, ?_, ?_⟩
  · cases hb : (render_body env (initial_state env)).err <;> simp [render, hb] <;> rfl
  · intro p hps
    cases hb : (render_body env (initial_state env)).err <;>
      simp [render, hb] at hps <;> exact hstart p hps
  · intro p hps
    cases hb : (render_body env (initial_state env)).err with
    | some e => simp [render, hb] at hps
    | none =>
        simp [render, hb] at hps
        subst hps
        rfl
  · intro p e hpe
    cases hb : (render_body env (initial_state env)).err with
    | none => simp [render, hb] at hpe
    | some e2 =>
        simp [render, hb] at hpe
        obtain ⟨hp1, hp2⟩ := hpe
        subst hp1
        rfl
  · intro rc hrc hne hstages
    obtain ⟨s2, hst, herr, hreach⟩ := render_body_stages env (initial_state env) hstages
    have hef : (encode_and_finish env s2).2 = some (PyError.renderError
        { type := "return-code"
          message := "Could not render movie, got return code " ++ toString rc
            ++ ": " ++ env.encoder_stderr
          cause := none }) := by
      unfold encode_and_finish
      rw [hrc]
      simp [hne]
    have hb : (render_body env (initial_state env)).err = some (PyError.renderError
        { type := "return-code"
          message := "Could not render movie, got return code " ++ toString rc
            ++ ": " ++ env.encoder_stderr
          cause := none }) := by
      rw [herr, hef]
    refine ⟨create_callback_payload env (render_body env (initial_state env)).state 0
      "The render process failed.", ?_, rfl⟩
    simp [render, hb, normalizeError]

/-- **C10 witness.** The encoder exits with code 3 and stderr text
`encoder boom`: the error payload's return code is still 0, and the exit
code 3 appears only in the `return-code` error's message. -/
theorem render_payload_return_code_spec_witness :
    ((render encoderFailEnv).failure.map
        (fun pe => (pe.1.ReturnCode, pe.2.type, pe.2.message)))
      = some (0, "return-code", "Could not render movie, got return code 3: encoder boom") := by
  have h := (render_payload_return_code_spec encoderFailEnv).2.2.2.2 3 rfl (by decide)
    (by unfold stages_before_encoder_ok; decide)
  obtain ⟨p, hpe, hrc⟩ := h
  rw [hpe]
  simp only [Option.map_some']
  rw [hrc]
  rfl

end Octolapse
